import Mathlib

/-!
Verification development for the web-one-api extraction pipeline.

The Python sources `src/extractor.py` and `src/utils.py` are shallowly
embedded below.  External collaborators (BeautifulSoup, urllib's urljoin,
tldextract, fuzzywuzzy's ratio scorer) are modelled as executable Lean
functions faithful to their documented behaviour on the inputs this
development exercises; the repository's own functions are translated
line-by-line from the source.  Machine integers do not occur (all counts
are small naturals); fallible Python code is modelled by total functions
whose exception branches are written out explicitly.
-/

namespace WebOne

/-! ## Character and string helpers (models of Python str operations) -/

/-- Python `str.strip` whitespace set, restricted to the ASCII whitespace
characters: space, tab, newline, carriage return, vertical tab, form feed. -/
def isPyWs (c : Char) : Bool :=
  c = ' ' || c = '\t' || c = '\n' || c = '\r' || c = '\x0b' || c = '\x0c'

/-- Python `str.strip()` on a character list: drop leading and trailing
whitespace. -/
def pyStripL (s : List Char) : List Char :=
  ((s.dropWhile isPyWs).reverse.dropWhile isPyWs).reverse

/-- Python `str.replace(a, b)` for single-character patterns, which is a
character-wise map. -/
def charRepl (a b : Char) (s : List Char) : List Char :=
  s.map (fun c => if c = a then b else c)

/-- Lowercase a string (model of Python `str.lower` for ASCII). -/
def lowerStr (s : String) : String :=
  String.mk (s.data.map Char.toLower)

/-- Whether `pat` is a prefix of `s` (character lists). -/
def isPre : List Char → List Char → Bool
  | [], _ => true
  | _ :: _, [] => false
  | a :: as, b :: bs => a = b && isPre as bs

/-- Scan `s` for the first occurrence of `pat`; return the characters
after that occurrence, or `none` when `pat` does not occur. -/
def afterSub (pat : List Char) : List Char → Option (List Char)
  | [] => if pat.isEmpty then some [] else Option.none
  | c :: cs => if isPre pat (c :: cs) then some (List.drop pat.length (c :: cs))
               else afterSub pat cs

/-- Python `pat in s` substring containment. -/
def hasSub (s pat : String) : Bool :=
  (afterSub pat.data s.data).isSome

/-- Split a character list on a separator character (model of Python
`str.split(sep)` for one-character separators). -/
def splitCh (sep : Char) : List Char → List (List Char)
  | [] => [[]]
  | c :: cs =>
    if c = sep then [] :: splitCh sep cs
    else match splitCh sep cs with
         | [] => [[c]]
         | g :: gs => (c :: g) :: gs

/-- Take characters until the predicate holds (used to cut URLs at
delimiters). -/
def takeUntil (p : Char → Bool) (s : List Char) : List Char :=
  s.takeWhile (fun c => !(p c))

/-- The characters after the last occurrence of `sep` (the whole list when
`sep` does not occur). -/
def afterLast (sep : Char) (s : List Char) : List Char :=
  (splitCh sep s).getLastD []

/-- Join character-list segments with `.` between them. -/
def joinDots : List (List Char) → List Char
  | [] => []
  | [g] => g
  | g :: gs => g ++ '.' :: joinDots gs

/-- The cleaning applied by `extractFirst` in `src/utils.py`: strip, then
replace tab, carriage return and newline each by a single space. -/
def cleanedText (s : String) : String :=
  String.mk (charRepl '\n' ' ' (charRepl '\r' ' ' (charRepl '\t' ' ' (pyStripL s.data))))

/-! ## The document tree (model of the BeautifulSoup parse result)

`src/extractor.py` parses the raw HTML with BeautifulSoup.  Parsing itself
is an external capability; the pipeline only ever consumes the resulting
tree, which we model directly by the soup's list of root nodes (its
`contents`).  The `if soup:` test in `extract` asks whether parsing
produced a usable tree; an input that is empty or yields no usable tree is
modelled by the empty root list, on which that test fails. -/

inductive Node where
  | elem : String → List (String × String) → List Node → Node
  | txt : String → Node
deriving Repr

/-- bs4 truthiness: a Tag is truthy iff it has contents; a NavigableString
iff it is a nonempty string. -/
def nodeTruthy : Node → Bool
  | .elem _ _ cs => !cs.isEmpty
  | .txt s => !(s = "")

mutual

/-- bs4 `Tag.get_text()` / `.text`: concatenation of all descendant
string nodes in document order. -/
def getText : Node → String
  | .txt s => s
  | .elem _ _ cs => getTextL cs

/-- `get_text` over a list of sibling nodes. -/
def getTextL : List Node → String
  | [] => ""
  | n :: ns => getText n ++ getTextL ns

end

mutual

/-- bs4 `find_all(tag)`: every descendant element with the given tag name,
in document (pre-)order, the element itself listed before its descendants. -/
def findAllN (tag : String) : Node → List Node
  | .txt _ => []
  | .elem t a cs =>
    (if t = tag then [Node.elem t a cs] else []) ++ findAllL tag cs

/-- `find_all` over the root list of a soup. -/
def findAllL (tag : String) : List Node → List Node
  | [] => []
  | n :: ns => findAllN tag n ++ findAllL tag ns

end

/-- bs4 `find(tag)`: the first element found, if any. -/
def findFirst (tag : String) (soup : List Node) : Option Node :=
  (findAllL tag soup).head?

mutual

/-- Effect of `tag.extract()` applied to every `<script>` and `<style>`
element (lines 63–67 of `src/extractor.py`): the element and its whole
subtree disappear from the tree.  Returns `none` when the node is removed. -/
def scrub : Node → Option Node
  | .txt s => some (.txt s)
  | .elem t a cs =>
    if t = "script" || t = "style" then Option.none
    else some (.elem t a (scrubL cs))

/-- Script/style removal over a list of sibling nodes. -/
def scrubL : List Node → List Node
  | [] => []
  | n :: ns =>
    match scrub n with
    | some m => m :: scrubL ns
    | Option.none => scrubL ns

end

mutual

/-- Text of a tree collected while skipping every `<script>` and `<style>`
subtree entirely.  Used to state that script/style text never contributes
to the raw text. -/
def textSkip : Node → String
  | .txt s => s
  | .elem t _ cs => if t = "script" || t = "style" then "" else textSkipL cs

/-- `textSkip` over a list of sibling nodes. -/
def textSkipL : List Node → String
  | [] => ""
  | n :: ns => textSkip n ++ textSkipL ns

end

/-- Attribute lookup on an element (`tag.get(attr)` in bs4): `none` when the
attribute is absent or the node is a string. -/
def getAttr : Node → String → Option String
  | .elem _ attrs _, a => (attrs.find? (fun p => p.1 = a)).map (·.2)
  | .txt _, _ => Option.none

/-- `tag.get(attr, dflt)` in bs4. -/
def getAttrD (n : Node) (a dflt : String) : String :=
  (getAttr n a).getD dflt

/-! ## Configuration (keywords.yaml)

`src/utils.py` loads `keywordsMap` from `keywords.yaml` at import time; the
file itself is not under src.  Modelled from the spec: §6 says the store
supplies `social_links: set of string tokens` (including compound
`subdomain_domain` tokens) and `inlink_threshold: integer 0–100`. -/

structure Keywords where
  social_links : List String
  inlink_threshold : Nat
deriving Repr, DecidableEq

/-- Modelled from the spec: keywords.yaml is missing from src, so its
contents are reconstructed from the spec's words.  The social tokens follow
the social networks enumerated in the (unused) `sociallink_domains`
frozenset in `isSocialLink`, which the spec's §4.1 examples agree with; the
threshold 80 is a representative integer in the spec's stated 0–100 range,
consistent with both §8 examples for `isDomainLink`. -/
def keywordsMap : Keywords :=
  { social_links :=
      ["linkedin", "facebook", "twitter", "youtube", "instagram",
       "pinterest", "plus_google"],
    inlink_threshold := 80 }

/-! ## tldextract model

`tldextract.extract(url)` splits a URL's host into subdomain, registrable
domain and public suffix.  It is an external library; the model below
strips a `scheme://` prefix, cuts the host at the first `/`, `?` or `#`,
drops userinfo and port, lowercases, and matches the last host label
against a public-suffix list restricted to the common single-label
suffixes exercised in this development.  A host whose last label is not a
listed suffix gets an empty suffix and the last label as its domain, as
tldextract does for unknown TLDs. -/

def pslOne : List String := ["com", "org", "net", "edu", "gov", "uk"]

/-- The lowercased host labels of a URL. -/
def tldParts (u : String) : List (List Char) :=
  let s := (afterSub ("://".data) u.data).getD u.data
  let s := takeUntil (fun c => c = '/' || c = '?' || c = '#') s
  let s := afterLast '@' s
  let s := takeUntil (fun c => c = ':') s
  splitCh '.' (s.map Char.toLower)

/-- `tldextract.extract(u).domain` (the registrable domain token). -/
def tldDomain (u : String) : String :=
  match (tldParts u).reverse with
  | [] => ""
  | last :: rest =>
    if pslOne.contains (String.mk last) then
      match rest with
      | [] => ""
      | d :: _ => String.mk d
    else String.mk last

/-- `tldextract.extract(u).subdomain`. -/
def tldSub (u : String) : String :=
  match (tldParts u).reverse with
  | [] => ""
  | last :: rest =>
    if pslOne.contains (String.mk last) then
      match rest with
      | [] => ""
      | _ :: subs => String.mk (joinDots subs.reverse)
    else String.mk (joinDots rest.reverse)

/-! ## fuzzywuzzy ratio model

`fuzz.ratio(a, b)` is the Ratcliff–Obershelp similarity computed by
Python's difflib `SequenceMatcher` (fuzzywuzzy's pure-python scorer):
`round(200 * M / (len a + len b))` where `M` is the total size of the
matching blocks.  Modelled below exactly as difflib computes it for inputs
short enough that the autojunk heuristic is off. -/

/-- Ascending indices `j` with `blo ≤ j < bhi` and `b[j] = c`
(difflib's `b2j` lookup restricted to the active window). -/
def jIndices (b : List Char) (c : Char) (blo bhi : Nat) : List Nat :=
  (List.range b.length).filter
    (fun j => decide (blo ≤ j) && decide (j < bhi) && (b.getD j ' ' = c) && decide (j < b.length))

/-- Default-0 lookup in an association list keyed by naturals. -/
def lookupD (m : List (Nat × Nat)) (k : Nat) : Nat :=
  ((m.find? (fun p => p.1 = k)).map (·.2)).getD 0

/-- difflib `find_longest_match` on the windows `a[alo:ahi]`, `b[blo:bhi]`:
returns `(i, j, k)`, the longest matching block, earliest in `a` then in
`b` on ties. -/
def findLongMatch (a b : List Char) (alo ahi blo bhi : Nat) : Nat × Nat × Nat :=
  let step := fun (st : List (Nat × Nat) × (Nat × Nat × Nat)) (i : Nat) =>
    let c := a.getD i ' '
    let js := jIndices b c blo bhi
    js.foldl
      (fun (st2 : List (Nat × Nat) × (Nat × Nat × Nat)) (j : Nat) =>
        let k := (if j = 0 then 0 else lookupD st.1 (j - 1)) + 1
        let best := st2.2
        let best := if k > best.2.2 then (i + 1 - k, j + 1 - k, k) else best
        ((j, k) :: st2.1, best))
      ([], st.2)
  ((List.range' alo (ahi - alo)).foldl step ([], (alo, blo, 0))).2

/-- Total size of difflib's matching blocks, by the recursive
divide-around-the-longest-match scheme; `fuel` bounds the recursion depth
(the window length suffices). -/
def mbTotal (a b : List Char) : Nat → Nat → Nat → Nat → Nat → Nat
  | 0, _, _, _, _ => 0
  | fuel + 1, alo, ahi, blo, bhi =>
    let r := findLongMatch a b alo ahi blo bhi
    let i := r.1
    let j := r.2.1
    let k := r.2.2
    if k = 0 then 0
    else k + mbTotal a b fuel alo i blo j + mbTotal a b fuel (i + k) ahi (j + k) bhi

/-- Round-half-to-even of `num / den` (Python `round`). -/
def roundHE (num den : Nat) : Nat :=
  let q := num / den
  let r := num % den
  if 2 * r < den then q
  else if den < 2 * r then q + 1
  else if q % 2 = 0 then q else q + 1

/-- `fuzz.ratio(a, b)` as an integer 0–100. -/
def fuzzScore (a b : String) : Nat :=
  let la := a.data.length
  let lb := b.data.length
  if la + lb = 0 then 100
  else roundHE (200 * mbTotal a.data b.data la 0 la 0 lb) (la + lb)

/-! ## urljoin model

`urllib.parse.urljoin(base, url)` is external; modelled for the reference
classes this pipeline produces: empty references, references carrying their
own scheme (returned unchanged, as for `mailto:` and fully absolute HTTP
URLs), network-path (`//…`), absolute-path (`/…`) and plain relative
references.  Dot-segment normalization and query/fragment merging are
outside the modelled scope. -/

/-- Whether the reference carries its own scheme (`letter+digits+.-` then
`:`). -/
def hasScheme (u : String) : Bool :=
  let pre := u.data.takeWhile
    (fun c => c.isAlpha || c.isDigit || c = '+' || c = '-' || c = '.')
  !pre.isEmpty && decide ((u.data.drop pre.length).head? = some ':')

/-- The scheme of an absolute URL (characters before the first `:`). -/
def schemeOf (u : String) : String :=
  String.mk (u.data.takeWhile (fun c => !(c = ':')))

/-- The authority of an absolute URL: the part between `://` and the next
`/`, `?` or `#`. -/
def authorityOf (u : String) : List Char :=
  takeUntil (fun c => c = '/' || c = '?' || c = '#')
    ((afterSub ("://".data) u.data).getD [])

/-- `scheme://authority` of an absolute URL. -/
def schemeHost (u : String) : String :=
  schemeOf u ++ "://" ++ String.mk (authorityOf u)

/-- The path of an absolute URL (after the authority, before `?`/`#`). -/
def pathOf (u : String) : List Char :=
  let rest := (afterSub ("://".data) u.data).getD []
  takeUntil (fun c => c = '?' || c = '#') (rest.drop (authorityOf u).length)

/-- The path up to and including its last `/` (empty when the path has no
`/`). -/
def dirOf (p : List Char) : List Char :=
  (p.reverse.dropWhile (fun c => !(c = '/'))).reverse

/-- Model of `urllib.parse.urljoin`. -/
def urljoin (base url : String) : String :=
  if url = "" then base
  else if hasScheme url then url
  else if isPre ("//".data) url.data then schemeOf base ++ ":" ++ url
  else if isPre ("/".data) url.data then schemeHost base ++ url
  else
    let d := dirOf (pathOf base)
    let d := if d.isEmpty then "/".data else d
    schemeHost base ++ String.mk d ++ url

/-! ## utils.py -/

/-- The values `extractFirst` receives in this codebase: `None` (a missed
`find`), a plain Python string (the soup's `original_encoding`), or a bs4
Tag (modelled by `Node.elem`). -/
inductive PyVal where
  | none : PyVal
  | str : String → PyVal
  | node : Node → PyVal
deriving Repr

/-- Embeds `extractFirst` (`src/utils.py` lines 147–165).  A truthy Tag
yields `val.text.strip()` with tab, carriage return and newline replaced by
spaces; a falsy value falls through to `return ''`; a truthy plain string
reaches `val.text`, which raises `AttributeError`, and the dedicated
handler returns `val` — the original input — unchanged. -/
def extractFirst : PyVal → String
  | PyVal.none => ""
  | PyVal.str s => if s = "" then "" else s
  | PyVal.node n => if nodeTruthy n then cleanedText (getText n) else ""

/-- Embeds `extractTextAsIs` (`src/utils.py` lines 177–184): `val.text`
for a Tag, which never fails. -/
def extractTextAsIs (n : Node) : String :=
  getText n

/-- Embeds `extractAttributeValue` (`src/utils.py` lines 197–205):
`tag[attr]`, with every exception (missing key, string node) recovered to
`''`. -/
def extractAttributeValue (tag : Node) (attr : String) : String :=
  (getAttr tag attr).getD ""

/-- Embeds `toAbsoluteURL` (`src/utils.py` lines 218–229): `urljoin`, whose
model is total, so the `except`-branch returning `url` unchanged is
unreachable here. -/
def toAbsoluteURL (base_url url : String) : String :=
  urljoin base_url url

/-- Embeds `isEmailLink` (`src/utils.py` lines 241–250).  The first test is
`"mailto:" in url.lower()`.  The second line calls
`mailValidation.email(url)`, but the name `mailValidation` is neither
imported nor defined anywhere in the repository, so that call raises
`NameError`, the catch-all handler fires, and the function returns `False`
for every non-mailto input. -/
def isEmailLink (url : String) : Bool :=
  hasSub (lowerStr url) "mailto:"

/-- Modelled from the spec: the bare-address validation that
`mailValidation.email` was meant to perform has no source in the
repository (the name is undefined).  Faithful to the spec's words —
"independently validates as a bare email address": one `@` separating a
nonempty local part from a domain made of at least two nonempty dot-labels. -/
def validatesAsBareEmail (s : String) : Bool :=
  match splitCh '@' s.data with
  | [l, d] =>
    let labels := splitCh '.' d
    !l.isEmpty && decide (2 ≤ labels.length) && labels.all (fun g => !g.isEmpty)
  | _ => false

/-- Embeds `isSocialLink` (`src/utils.py` lines 262–279): membership of the
lowercased registrable-domain token in the configured social set, else of
the `subdomain_domain` compound token.  The local `sociallink_domains`
frozenset in the source is dead code and is not modelled. -/
def isSocialLink (cfg : Keywords) (url : String) : Bool :=
  let url_domain := lowerStr (tldDomain url)
  let url_subdomain := lowerStr (tldSub url)
  if cfg.social_links.contains url_domain then true
  else if cfg.social_links.contains (url_subdomain ++ "_" ++ url_domain) then true
  else false

/-- Embeds `isDomainLink` (`src/utils.py` lines 291–312): fuzzy ratio of
the registrable domains of `root` and `url` against the configured
threshold. -/
def isDomainLink (cfg : Keywords) (root url : String) : Bool :=
  let root_domain := tldDomain root
  let child_domain := tldDomain url
  let matchScore := fuzzScore root_domain child_domain
  if matchScore ≥ cfg.inlink_threshold then true else false

/-! ## extractor.py -/

/-- The `header` dict assembled by `extract`. -/
structure Header where
  url : String
  extracted_ts : String
  status_code : Nat
  status_msg : String
deriving Repr, DecidableEq

/-- The per-anchor KV pair built inside `getLinks`. -/
structure LinkKV where
  href : String
  aid : String
  aname : String
  atext : String
deriving Repr, DecidableEq

/-- The four link buckets returned by `getLinks`. -/
structure Links where
  emails : List LinkKV
  sociallinks : List LinkKV
  inlinks : List LinkKV
  outlinks : List LinkKV
deriving Repr, DecidableEq

/-- A script KV pair (`script_src` keeps the `None`/string distinction of
`sc.get('src')`). -/
structure ScriptKV where
  script_src : Option String
  script_type : String
deriving Repr, DecidableEq

/-- An image KV pair. -/
structure ImageKV where
  img_src : Option String
  img_alt : String
deriving Repr, DecidableEq

/-- The `body` dict assembled by `extract` on the success branch. -/
structure Body where
  title : String
  encoded_in : String
  seo : List String
  images : List ImageKV
  scripts : List ScriptKV
  meta : List (List (String × String))
  links : Links
  raw_text : String
deriving Repr, DecidableEq

/-- The returned `webdata` dict; `body = none` models the empty body dict
of the failure branch. -/
structure Webdata where
  header : Header
  body : Option Body
deriving Repr, DecidableEq

/-- Embeds `getSEOData` (`src/extractor.py` lines 234–241):
`find_all("script", attrs={"type": "application/ld+json"})`, each mapped
through `extractTextAsIs`. -/
def getSEOData (isoup : List Node) : List String :=
  ((findAllL "script" isoup).filter
    (fun n => decide (getAttr n "type" = some "application/ld+json"))).map
    extractTextAsIs

/-- Embeds `getImageTags` (`src/extractor.py` lines 189–199): every `<img>`
whose `src` is truthy (present and nonempty). -/
def getImageTags (isoup : List Node) : List ImageKV :=
  (findAllL "img" isoup).filterMap (fun img =>
    let kv : ImageKV := { img_src := getAttr img "src",
                          img_alt := getAttrD img "alt" "" }
    match kv.img_src with
    | some s => if s = "" then Option.none else some kv
    | Option.none => Option.none)

/-- Embeds `getScriptTags` (`src/extractor.py` lines 166–176): every
`<script>` whose `src` is truthy. -/
def getScriptTags (isoup : List Node) : List ScriptKV :=
  (findAllL "script" isoup).filterMap (fun sc =>
    let kv : ScriptKV := { script_src := getAttr sc "src",
                           script_type := getAttrD sc "type" "" }
    match kv.script_src with
    | some s => if s = "" then Option.none else some kv
    | Option.none => Option.none)

/-- Embeds `getMetaData` (`src/extractor.py` lines 212–221): the attribute
dict of every `<meta>` that has at least one attribute. -/
def getMetaData (isoup : List Node) : List (List (String × String)) :=
  (findAllL "meta" isoup).filterMap (fun tag =>
    match tag with
    | .elem _ attrs _ => if attrs.isEmpty then Option.none else some attrs
    | .txt _ => Option.none)

/-- The KV pair `getLinks` builds for one anchor (`src/extractor.py` lines
115–128): raw attributes, cleaned text, and the href made absolute. -/
def mkKV (baseURL : String) (link : Node) : LinkKV :=
  let href := extractAttributeValue link "href"
  { href := toAbsoluteURL baseURL href,
    aid := extractAttributeValue link "id",
    aname := extractAttributeValue link "name",
    atext := extractFirst (PyVal.node link) }

/-- The bucket an anchor lands in. -/
inductive Bucket where
  | em | soc | inl | out
deriving Repr, DecidableEq

/-- The `if/elif/elif/else` chain of `getLinks` (`src/extractor.py` lines
131–144), tested in priority order email → social → same-domain → other. -/
def classifyHref (cfg : Keywords) (baseURL href : String) : Bucket :=
  if isEmailLink href then .em
  else if isSocialLink cfg href then .soc
  else if isDomainLink cfg baseURL href then .inl
  else .out

/-- One iteration of the anchor loop in `getLinks`: append the anchor's KV
pair to the single bucket its classification selects. -/
def addLink (cfg : Keywords) (baseURL : String) (acc : Links) (link : Node) :
    Links :=
  let kv := mkKV baseURL link
  match classifyHref cfg baseURL kv.href with
  | .em => { acc with emails := acc.emails ++ [kv] }
  | .soc => { acc with sociallinks := acc.sociallinks ++ [kv] }
  | .inl => { acc with inlinks := acc.inlinks ++ [kv] }
  | .out => { acc with outlinks := acc.outlinks ++ [kv] }

/-- Embeds `getLinks` (`src/extractor.py` lines 105–153): fold the anchor
loop over `find_all('a')` starting from four empty buckets. -/
def getLinks (cfg : Keywords) (isoup : List Node) (baseURL : String) : Links :=
  (findAllL "a" isoup).foldl (addLink cfg baseURL)
    { emails := [], sociallinks := [], inlinks := [], outlinks := [] }

/-- Embeds `normalize_url` (`src/extractor.py` lines 244–256); unused by
the pipeline but part of the module. -/
def normalize_url (url : String) : Option String :=
  if url = "" then Option.none
  else if isPre ("http://www.".data) url.data then some (String.mk (url.data.drop 11))
  else if isPre ("https://www.".data) url.data then some (String.mk (url.data.drop 12))
  else if isPre ("https://".data) url.data then some (String.mk (url.data.drop 8))
  else if isPre ("www.".data) url.data then some (String.mk (url.data.drop 4))
  else some url

/-- Embeds `extract` (`src/extractor.py` lines 30–92).  BeautifulSoup
parsing is modelled by its result: the soup's root node list plus the
detected `original_encoding`; `str(datetime.utcnow())` is the explicit
`now` argument, the code's only impure input.  `if soup:` — parsing
yielded a usable tree — is a nonempty root list.  Scripts and SEO data are
harvested
before every `<script>`/`<style>` element is removed; meta tags, links and
the raw text are computed from the scrubbed tree. -/
def extract (cfg : Keywords) (url : String) (soup : List Node)
    (origEnc : Option String) (now : String) : Webdata :=
  let header : Header :=
    { url := url, extracted_ts := now, status_code := 200, status_msg := "OK" }
  if soup.isEmpty then
    { header := { header with
        status_code := 999,
        status_msg := "Could not generate the soup . Raw HTML might be empty" },
      body := Option.none }
  else
    let scrubbed := scrubL soup
    { header := header,
      body := some
        { title := extractFirst (match findFirst "title" soup with
            | some n => PyVal.node n
            | Option.none => PyVal.none),
          encoded_in := extractFirst (match origEnc with
            | some s => PyVal.str s
            | Option.none => PyVal.none),
          seo := getSEOData soup,
          images := getImageTags soup,
          scripts := getScriptTags soup,
          meta := getMetaData scrubbed,
          links := getLinks cfg scrubbed url,
          raw_text := getTextL scrubbed } }

/-! ## Theorems for the claims -/

/-- Helper: a falsy node (a Tag with no contents, or an empty string node)
has empty text. -/
theorem getText_of_falsy (n : Node) (h : nodeTruthy n = false) : getText n = "" := by
  cases n with
  | txt s =>
    simp only [nodeTruthy, Bool.not_eq_false', decide_eq_true_eq] at h
    simp only [getText, h]
  | elem t a cs =>
    simp only [nodeTruthy, Bool.not_eq_false', List.isEmpty_iff] at h
    subst h
    rfl

/-- Claim C1, counterexample: on the unusable-tree branch the header's
status message is the literal from `src/extractor.py` line 80, not the
diagnostic "raw HTML is either missing or empty", which line 81 only
writes to the log. -/
theorem claim1_counterexample :
    (extract keywordsMap "" [] Option.none "ts").header.status_msg
      = "Could not generate the soup . Raw HTML might be empty" ∧
    (extract keywordsMap "" [] Option.none "ts").header.status_msg
      ≠ "raw HTML is either missing or empty" := by
  constructor
  · rfl
  · decide

/-- Claim C1 as amended: for every url (and encoding and timestamp), when
parsing yields no usable tree the orchestrator returns normally with
status code 999, status message "Could not generate the soup . Raw HTML
might be empty" (the phrase "raw HTML is either missing or empty" goes
only to the log), the given url echoed in the header, and an empty body. -/
theorem claim1_amended (cfg : Keywords) (url : String) (enc : Option String)
    (now : String) :
    (extract cfg url [] enc now).header.status_code = 999 ∧
    (extract cfg url [] enc now).header.status_msg
      = "Could not generate the soup . Raw HTML might be empty" ∧
    (extract cfg url [] enc now).header.url = url ∧
    (extract cfg url [] enc now).header.extracted_ts = now ∧
    (extract cfg url [] enc now).body = Option.none :=
  ⟨rfl, rfl, rfl, rfl, rfl⟩

/-- Claim C9: two runs of the orchestrator on identical inputs differ only
in the extraction timestamp — the body and every other header field
coincide, and each run's `extracted_ts` is exactly its own clock reading,
the code's only impure input. -/
theorem claim9_idempotence (cfg : Keywords) (url : String) (soup : List Node)
    (enc : Option String) (t1 t2 : String) :
    (extract cfg url soup enc t1).body = (extract cfg url soup enc t2).body ∧
    (extract cfg url soup enc t1).header.url
      = (extract cfg url soup enc t2).header.url ∧
    (extract cfg url soup enc t1).header.status_code
      = (extract cfg url soup enc t2).header.status_code ∧
    (extract cfg url soup enc t1).header.status_msg
      = (extract cfg url soup enc t2).header.status_msg ∧
    (extract cfg url soup enc t1).header.extracted_ts = t1 ∧
    (extract cfg url soup enc t2).header.extracted_ts = t2 := by
  cases soup with
  | nil => exact ⟨rfl, rfl, rfl, rfl, rfl, rfl⟩
  | cons n ns => exact ⟨rfl, rfl, rfl, rfl, rfl, rfl⟩

/-- Claim C4, counterexample: applied to a truthy plain string — a value on
which text extraction fails with `AttributeError` — `extractFirst` returns
the input unchanged, not the empty string the claim requires. -/
theorem claim4_counterexample :
    extractFirst (PyVal.str "abc") = "abc" ∧
    extractFirst (PyVal.str "abc") ≠ "" := by
  constructor
  · rfl
  · decide

/-- Claim C4 as amended: `extractFirst` never raises; on an absent node it
returns the empty string; on a node it returns the node's text stripped of
leading/trailing whitespace with every tab, carriage return and newline
replaced by a single space (so the spec's example yields "a b"); but when
text extraction fails with an attribute error — the input is a truthy
plain string rather than a node — it returns the original input unchanged
instead of the empty string. -/
theorem claim4_amended :
    extractFirst PyVal.none = "" ∧
    (∀ s : String, s ≠ "" → extractFirst (PyVal.str s) = s) ∧
    (∀ n : Node, extractFirst (PyVal.node n) = cleanedText (getText n)) ∧
    extractFirst (PyVal.node (Node.elem "title" [] [Node.txt "  a\tb\n"])) = "a b" := by
  refine ⟨rfl, ?_, ?_, by decide⟩
  · intro s hs
    simp [extractFirst, hs]
  · intro n
    cases ht : nodeTruthy n with
    | true => simp [extractFirst, ht]
    | false => simp [extractFirst, ht, getText_of_falsy n ht, cleanedText,
                     pyStripL, charRepl]

/-- Claim C4 witness: the amended theorem applied at the nonempty plain
string "utf-8". -/
theorem claim4_witness :
    ("utf-8" : String) ≠ "" ∧ extractFirst (PyVal.str "utf-8") = "utf-8" :=
  ⟨by decide, claim4_amended.2.1 "utf-8" (by decide)⟩

/-- Claim C10: a truthy plain string given to `extractFirst` — as happens
for the body's detected-encoding field — comes back unchanged, with no
trimming and no whitespace replacement, because the `AttributeError`
handler returns the original input; consequently `body.encoded_in` is the
detected encoding string itself. -/
theorem claim10_encoding_passthrough (s : String) (cfg : Keywords)
    (url now : String) (n : Node) (ns : List Node) (hs : s ≠ "") :
    extractFirst (PyVal.str s) = s ∧
    ((extract cfg url (n :: ns) (some s) now).body.map Body.encoded_in)
      = some s := by
  constructor
  · simp [extractFirst, hs]
  · simp [extract, extractFirst, hs]

/-- Claim C10 witness: the theorem applied at the encoding string "utf-8"
on a one-node soup. -/
theorem claim10_witness :
    ("utf-8" : String) ≠ "" ∧
    (extractFirst (PyVal.str "utf-8") = "utf-8" ∧
     ((extract keywordsMap "u" [Node.txt "x"] (some "utf-8") "t").body.map
       Body.encoded_in) = some "utf-8") :=
  ⟨by decide,
   claim10_encoding_passthrough "utf-8" keywordsMap "u" "t" (Node.txt "x") []
     (by decide)⟩

/-- Claim C5 (code bug): the mailto-prefix test works case-insensitively,
but a valid bare email address is rejected by `isEmailLink`: the source
calls `mailValidation.email(url)` on an undefined name, the resulting
`NameError` is swallowed by the catch-all handler, and `False` is
returned — while the spec-modelled bare-address validation accepts the
same input. -/
theorem claim5_bug :
    isEmailLink "MAILTO:Bob@x.com" = true ∧
    isEmailLink "user@example.com" = false ∧
    validatesAsBareEmail "user@example.com" = true := by
  refine ⟨?_, rfl, rfl⟩
  decide

/-- Claim C6: for every configuration whose threshold is a valid integer
in 0–100 and above the similarity score of the spec's negative example
(any threshold the spec's own examples are consistent with),
`isDomainLink` returns true exactly when the fuzzy similarity score of the
two registrable domains reaches the threshold; in particular the page
`https://example.com/about` is same-domain for `https://example.com`
(score 100) and `https://totallydifferent.org` is not. -/
theorem claim6_isDomainLink (cfg : Keywords)
    (h100 : cfg.inlink_threshold ≤ 100) (h17 : 17 < cfg.inlink_threshold) :
    (∀ root url : String,
      isDomainLink cfg root url
        = decide (cfg.inlink_threshold ≤ fuzzScore (tldDomain root) (tldDomain url))) ∧
    isDomainLink cfg "https://example.com" "https://example.com/about" = true ∧
    isDomainLink cfg "https://example.com" "https://totallydifferent.org" = false := by
  refine ⟨?_, ?_, ?_⟩
  · intro root url
    by_cases h : cfg.inlink_threshold ≤ fuzzScore (tldDomain root) (tldDomain url) <;>
      simp [isDomainLink, ge_iff_le, h]
  · have hs : fuzzScore (tldDomain "https://example.com")
        (tldDomain "https://example.com/about") = 100 := by decide
    simp [isDomainLink, ge_iff_le, hs, h100]
  · have hs : fuzzScore (tldDomain "https://example.com")
        (tldDomain "https://totallydifferent.org") = 17 := by decide
    simp [isDomainLink, ge_iff_le, hs]
    omega

/-- Claim C6 witness: the theorem applied at the spec-modelled
configuration, whose threshold 80 satisfies both side conditions. -/
theorem claim6_witness :
    keywordsMap.inlink_threshold ≤ 100 ∧ 17 < keywordsMap.inlink_threshold ∧
    isDomainLink keywordsMap "https://example.com" "https://example.com/about" = true ∧
    isDomainLink keywordsMap "https://example.com" "https://totallydifferent.org" = false :=
  ⟨by decide, by decide,
   (claim6_isDomainLink keywordsMap (by decide) (by decide)).2.1,
   (claim6_isDomainLink keywordsMap (by decide) (by decide)).2.2⟩

/-- Claim C7: `isSocialLink` returns true exactly when the lowercased
registrable-domain token, or the lowercased `subdomain_domain` compound
token, is a member of the configured social set; in particular
`https://www.linkedin.com/in/x` and the compound Google-Plus case are
social and `https://example.org` is not. -/
theorem claim7_isSocialLink :
    (∀ (cfg : Keywords) (url : String),
      isSocialLink cfg url
        = (cfg.social_links.contains (lowerStr (tldDomain url)) ||
           cfg.social_links.contains
             (lowerStr (tldSub url) ++ "_" ++ lowerStr (tldDomain url)))) ∧
    isSocialLink keywordsMap "https://www.linkedin.com/in/x" = true ∧
    isSocialLink keywordsMap "https://plus.google.com/u/me" = true ∧
    isSocialLink keywordsMap "https://example.org" = false := by
  refine ⟨?_, by decide, by decide, by decide⟩
  intro cfg url
  by_cases h1 : cfg.social_links.contains (lowerStr (tldDomain url)) = true <;>
    by_cases h2 : cfg.social_links.contains
        (lowerStr (tldSub url) ++ "_" ++ lowerStr (tldDomain url)) = true <;>
      simp [isSocialLink, h1, h2]

/-- Claim C8: the per-anchor record builder of `getLinks` resolves every
href against the page URL with `toAbsoluteURL`, so an anchor carrying
`href="/path"` on a page fetched from `https://example.com/` yields a link
record whose href is `https://example.com/path`; relative and already
absolute references resolve per the standard rules as well. -/
theorem claim8_absolutize (attrs : List (String × String)) (cs : List Node)
    (h : extractAttributeValue (Node.elem "a" attrs cs) "href" = "/path") :
    (mkKV "https://example.com/" (Node.elem "a" attrs cs)).href
      = "https://example.com/path" ∧
    toAbsoluteURL "https://example.com/a/b" "c" = "https://example.com/a/c" ∧
    toAbsoluteURL "https://e.com/x" "https://o.org/p" = "https://o.org/p" := by
  refine ⟨?_, by decide, by decide⟩
  simp only [mkKV, h]
  decide

/-- Claim C8 witness: the theorem applied to a concrete anchor element
`<a href="/path">`. -/
theorem claim8_witness :
    extractAttributeValue (Node.elem "a" [("href", "/path")] []) "href" = "/path" ∧
    (mkKV "https://example.com/" (Node.elem "a" [("href", "/path")] [])).href
      = "https://example.com/path" :=
  ⟨by decide,
   (claim8_absolutize [("href", "/path")] [] (by decide)).1⟩

/-- Helper: the anchor loop of `getLinks`, run from any accumulator,
appends to each bucket exactly the records of the anchors classified into
that bucket, in document order. -/
theorem foldl_addLink_spec (cfg : Keywords) (base : String) :
    ∀ (ls : List Node) (acc : Links),
    (ls.foldl (addLink cfg base) acc).emails
      = acc.emails ++ (ls.map (mkKV base)).filter
          (fun kv => decide (classifyHref cfg base kv.href = Bucket.em)) ∧
    (ls.foldl (addLink cfg base) acc).sociallinks
      = acc.sociallinks ++ (ls.map (mkKV base)).filter
          (fun kv => decide (classifyHref cfg base kv.href = Bucket.soc)) ∧
    (ls.foldl (addLink cfg base) acc).inlinks
      = acc.inlinks ++ (ls.map (mkKV base)).filter
          (fun kv => decide (classifyHref cfg base kv.href = Bucket.inl)) ∧
    (ls.foldl (addLink cfg base) acc).outlinks
      = acc.outlinks ++ (ls.map (mkKV base)).filter
          (fun kv => decide (classifyHref cfg base kv.href = Bucket.out)) := by
  intro ls
  induction ls with
  | nil => intro acc; simp
  | cons n t ih =>
    intro acc
    obtain ⟨h1, h2, h3, h4⟩ := ih (addLink cfg base acc n)
    cases hc : classifyHref cfg base (mkKV base n).href <;>
      simp only [addLink, hc] at h1 h2 h3 h4 <;>
      simp [addLink, hc, List.filter_cons, h1, h2, h3, h4, List.append_assoc]

/-- Helper: filtering one list by the four mutually exclusive bucket tests
accounts for every element exactly once. -/
theorem filter_buckets_length (cfg : Keywords) (base : String) :
    ∀ l : List LinkKV,
    (l.filter (fun kv => decide (classifyHref cfg base kv.href = Bucket.em))).length +
    (l.filter (fun kv => decide (classifyHref cfg base kv.href = Bucket.soc))).length +
    (l.filter (fun kv => decide (classifyHref cfg base kv.href = Bucket.inl))).length +
    (l.filter (fun kv => decide (classifyHref cfg base kv.href = Bucket.out))).length
      = l.length := by
  intro l
  induction l with
  | nil => simp
  | cons kv t ih =>
    cases hc : classifyHref cfg base kv.href <;>
      simp [List.filter_cons, hc] <;> omega

/-- Claim C2: `getLinks` assigns each anchor of the document to exactly
one of the four buckets — the one selected by the `if/elif` chain testing
email, then social, then same-domain, then other — each bucket holding, in
document order, precisely the anchors so classified, and the four bucket
sizes sum to the total anchor count. -/
theorem claim2_partition (cfg : Keywords) (soup : List Node) (base : String) :
    ((getLinks cfg soup base).emails
      = ((findAllL "a" soup).map (mkKV base)).filter
          (fun kv => decide (classifyHref cfg base kv.href = Bucket.em)) ∧
     (getLinks cfg soup base).sociallinks
      = ((findAllL "a" soup).map (mkKV base)).filter
          (fun kv => decide (classifyHref cfg base kv.href = Bucket.soc)) ∧
     (getLinks cfg soup base).inlinks
      = ((findAllL "a" soup).map (mkKV base)).filter
          (fun kv => decide (classifyHref cfg base kv.href = Bucket.inl)) ∧
     (getLinks cfg soup base).outlinks
      = ((findAllL "a" soup).map (mkKV base)).filter
          (fun kv => decide (classifyHref cfg base kv.href = Bucket.out))) ∧
    (getLinks cfg soup base).emails.length
      + (getLinks cfg soup base).sociallinks.length
      + (getLinks cfg soup base).inlinks.length
      + (getLinks cfg soup base).outlinks.length
      = (findAllL "a" soup).length := by
  obtain ⟨h1, h2, h3, h4⟩ :=
    foldl_addLink_spec cfg base (findAllL "a" soup)
      { emails := [], sociallinks := [], inlinks := [], outlinks := [] }
  have hb1 : (getLinks cfg soup base).emails
      = ((findAllL "a" soup).map (mkKV base)).filter
          (fun kv => decide (classifyHref cfg base kv.href = Bucket.em)) := by
    simpa [getLinks] using h1
  have hb2 : (getLinks cfg soup base).sociallinks
      = ((findAllL "a" soup).map (mkKV base)).filter
          (fun kv => decide (classifyHref cfg base kv.href = Bucket.soc)) := by
    simpa [getLinks] using h2
  have hb3 : (getLinks cfg soup base).inlinks
      = ((findAllL "a" soup).map (mkKV base)).filter
          (fun kv => decide (classifyHref cfg base kv.href = Bucket.inl)) := by
    simpa [getLinks] using h3
  have hb4 : (getLinks cfg soup base).outlinks
      = ((findAllL "a" soup).map (mkKV base)).filter
          (fun kv => decide (classifyHref cfg base kv.href = Bucket.out)) := by
    simpa [getLinks] using h4
  refine ⟨⟨hb1, hb2, hb3, hb4⟩, ?_⟩
  rw [hb1, hb2, hb3, hb4,
      filter_buckets_length cfg base ((findAllL "a" soup).map (mkKV base)),
      List.length_map]

mutual

/-- Helper: the text of a node after script/style removal equals its text
collected while skipping script/style subtrees (a removed node contributes
the empty string). -/
theorem getText_scrub (n : Node) :
    (match scrub n with
     | some m => getText m
     | Option.none => "") = textSkip n := by
  cases n with
  | txt s => rfl
  | elem t a cs =>
    cases hb : (decide (t = "script") || decide (t = "style")) with
    | true => simp [scrub, textSkip, hb]
    | false =>
      simp only [scrub, textSkip, hb, Bool.false_eq_true, if_false, getText]
      exact getTextL_scrubL cs

/-- Helper: the concatenated text of a scrubbed sibling list equals the
script/style-skipping text of the original list. -/
theorem getTextL_scrubL (l : List Node) : getTextL (scrubL l) = textSkipL l := by
  cases l with
  | nil => rfl
  | cons n ns =>
    have h := getText_scrub n
    cases hs : scrub n with
    | none =>
      rw [hs] at h
      simp only [scrubL, hs, textSkipL, ← h]
      rw [getTextL_scrubL ns]
      simp
    | some m =>
      rw [hs] at h
      have h2 : getText m = textSkip n := h
      simp only [scrubL, hs, getTextL, textSkipL, h2]
      rw [getTextL_scrubL ns]

end

/-- Claim C3: on a successful extraction the harvested script descriptors
are those of the original tree — in particular every script with a
non-empty `src` contributes its `src`/`type` pair — while the raw text is
exactly the text of the document with every `<script>` and `<style>`
subtree skipped, because script data is harvested before the removal pass
and the raw text is computed last, from the scrubbed tree. -/
theorem claim3_script_style (cfg : Keywords) (url : String) (soup : List Node)
    (enc : Option String) (now : String) (b : Body) (n : Node) (s : String)
    (hb : (extract cfg url soup enc now).body = some b)
    (hn : n ∈ findAllL "script" soup)
    (hsrc : getAttr n "src" = some s)
    (hs : s ≠ "") :
    b.scripts = getScriptTags soup ∧
    b.raw_text = textSkipL soup ∧
    ({ script_src := some s, script_type := getAttrD n "type" "" } : ScriptKV)
      ∈ b.scripts := by
  cases soup with
  | nil => simp [extract] at hb
  | cons hd tl =>
    simp only [extract, List.isEmpty_cons, if_false, Bool.false_eq_true,
      Option.some.injEq] at hb
    subst hb
    refine ⟨rfl, getTextL_scrubL (hd :: tl), ?_⟩
    show _ ∈ getScriptTags (hd :: tl)
    simp only [getScriptTags, List.mem_filterMap]
    exact ⟨n, hn, by simp [hsrc, hs]⟩

/-- A concrete document for the claim C3 witness: a script with a source
and inline content, a style block, and visible text. -/
def c3soup : List Node :=
  [Node.elem "html" []
    [Node.elem "script" [("src", "app.js"), ("type", "mjs")] [Node.txt "SCRIPTBODY"],
     Node.elem "style" [] [Node.txt "CSSBODY"],
     Node.elem "p" [] [Node.txt "hello"]]]

/-- The script element of `c3soup`. -/
def c3node : Node :=
  Node.elem "script" [("src", "app.js"), ("type", "mjs")] [Node.txt "SCRIPTBODY"]

/-- The body `extract` produces for `c3soup`: the script's `src`/`type`
survive in `scripts` while neither "SCRIPTBODY" nor "CSSBODY" reaches
`raw_text`. -/
def c3body : Body :=
  { title := "", encoded_in := "", seo := [],
    images := [],
    scripts := [{ script_src := some "app.js", script_type := "mjs" }],
    meta := [],
    links := { emails := [], sociallinks := [], inlinks := [], outlinks := [] },
    raw_text := "hello" }

/-- Claim C3 witness: the theorem applied to the concrete document
`c3soup`, its script node, and the computed body `c3body`. -/
theorem claim3_witness :
    (extract keywordsMap "u" c3soup Option.none "t").body = some c3body ∧
    c3node ∈ findAllL "script" c3soup ∧
    getAttr c3node "src" = some "app.js" ∧
    ("app.js" : String) ≠ "" ∧
    (c3body.scripts = getScriptTags c3soup ∧
     c3body.raw_text = textSkipL c3soup ∧
     ({ script_src := some "app.js",
        script_type := getAttrD c3node "type" "" } : ScriptKV) ∈ c3body.scripts) :=
  ⟨by decide,
   by rw [show findAllL "script" c3soup = [c3node] from rfl]; exact List.mem_singleton.mpr rfl,
   by decide, by decide,
   claim3_script_style keywordsMap "u" c3soup Option.none "t" c3body c3node
     "app.js" (by decide)
     (by rw [show findAllL "script" c3soup = [c3node] from rfl]
         exact List.mem_singleton.mpr rfl)
     (by decide) (by decide)⟩

end WebOne

